import Mathlib

/-!
Shallow embedding of `RTPacketSatellite`
(`src/artiq/gateware/drtio/rt_packet_satellite.py`).

The module is a synchronous (Migen) design: every signal is recomputed
combinationally each tick from the registered state and the per-tick inputs,
and the registers latch their next values at the tick boundary.  We embed it
as a pure combinational function `comb : St → Inp → Out` together with a
register-update function `syncStep : Nat → St → Inp → St` (the `Nat` is the
link word width `ws`).

Migen semantics that the embedding follows:
* combinational signals default to their reset value (0 / false) on every
  tick unless a statement drives them;
* when several statements drive the same signal in one tick, the LAST
  executed assignment wins (Migen lowers the statement list to a sequential
  process);
* `NextState` is an assignment to the FSM state register, defaulting to the
  current state.

The receive datapath (`rx_dp`), transmit datapath (`tx_dp`) and the wire
layouts live in `rt_serializer.py`, which is outside the embedded file; the
values they expose to this module (`frame_r`, `packet_last`, `packet_type`,
the `packet_as` field views, `data_r`, `tx_dp.packet_last`) are therefore
per-tick inputs, and `tx_dp.send(...)` is an output.  Packet type codes and
CRI command codes are likewise external numeric tables; they are embedded as
closed enumerations, which preserves the dispatch structure exactly.
-/

/-- States of the RX dispatch FSM (`rx_fsm`, reset state INPUT). -/
inductive RxState
  | INPUT
  | SET_TIME
  | RESET
  | WRITE
  | BUFFER_SPACE
  | READ_REQUEST
  deriving DecidableEq, Repr

/-- States of the TX reply FSM (`tx_fsm`, reset state IDLE). -/
inductive TxState
  | IDLE
  | ECHO
  | BUFFER_SPACE
  | READ_TIMEOUT
  | READ_OVERFLOW
  | READ
  deriving DecidableEq, Repr

/-- Packet type codes dispatched on in `rx_fsm.act("INPUT")`; `other` stands
for every code not in `rx_plm.types` (the `"default"` case). -/
inductive PacketType
  | echo_request
  | set_time
  | reset
  | write
  | buffer_space_request
  | read_request
  | other
  deriving DecidableEq, Repr

/-- CRI command codes (`cri.commands`); `nop` is the default (0). -/
inductive CriCmd
  | nop
  | write
  | read
  deriving DecidableEq, Repr

/-- A reply requested from the transmit datapath via `tx_dp.send(...)`. -/
inductive TxSend
  | echo_reply
  | buffer_space_reply (space : Nat)
  | read_reply_noevent (overflow : Bool)
  | read_reply (timestamp : Nat) (data : Nat)
  deriving DecidableEq, Repr

/-- Per-tick inputs of the module: the receive-datapath views, the CRI
status/result inputs, and the transmit-datapath last-word indicator.
`i_status_0/1/2` are the bits of `cri.i_status` (0 = read timed out,
1 = read overflowed, 2 = read still pending, per the dispatch in
`tx_fsm.act("IDLE")`). -/
structure Inp where
  frame_r : Bool
  packet_last : Bool
  packet_type : PacketType
  data_r : Nat
  set_time_timestamp : Nat
  reset_phy : Bool
  write_channel : Nat
  write_timestamp : Nat
  write_address : Nat
  write_short_data : Nat
  write_extra_data_cnt : Nat
  read_request_channel : Nat
  read_request_timeout : Nat
  o_buffer_space : Nat
  i_status_0 : Bool
  i_status_1 : Bool
  i_status_2 : Bool
  i_timestamp : Nat
  i_data : Nat
  tx_packet_last : Bool
  deriving DecidableEq, Repr

/-- The registered state of the module: both FSM state registers and every
`self.sync` register.  `reset_out` / `reset_phy_out` are the registered
outputs `self.reset` / `self.reset_phy` (reset value 1). -/
structure St where
  rx : RxState
  tx : TxState
  write_data_buffer_cnt : Nat
  write_data_buffer : List Nat
  buffer_space_req : Bool
  buffer_space : Nat
  read_request_pending : Bool
  ongoing_packet : Bool
  reset_out : Bool
  reset_phy_out : Bool
  deriving DecidableEq, Repr

/-- Combinational outputs of a tick.  `reset` / `reset_phy` are the
combinational signals of the same names (lines 100-101), which feed the
registered outputs.  `cri_o_data` models
`Cat(packet_as["write"].short_data, write_data_buffer)` as the pair of its
two components, since the width of `short_data` is defined by the external
serializer layouts. -/
structure Out where
  packet_truncated : Bool
  unknown_packet_type : Bool
  tsc_load : Bool
  tsc_load_value : Nat
  cri_cmd : CriCmd
  cri_chan_sel : Nat
  cri_timestamp : Nat
  cri_o_address : Nat
  cri_o_data : Nat × List Nat
  echo_req : Bool
  buffer_space_set : Bool
  buffer_space_ack : Bool
  buffer_space_update : Bool
  load_read_request : Bool
  clear_read_request : Bool
  write_data_buffer_load : Bool
  reset : Bool
  reset_phy : Bool
  ongoing_packet_next : Bool
  packet_buffer_load : Bool
  rx_next : RxState
  tx_next : TxState
  send : Option TxSend
  deriving DecidableEq, Repr

/-- Number of binary digits of `n`, with explicit fuel so that it is
structurally recursive (the fuel `n` itself always suffices). -/
def bitsAux : Nat → Nat → Nat
  | 0, _ => 0
  | fuel + 1, n => if n = 0 then 0 else bitsAux fuel (n / 2) + 1

/-- Migen `bits_for`: number of bits needed to represent `n`. -/
def bits_for (n : Nat) : Nat := bitsAux n n

/-- Width of `write_data_buffer_cnt`, a `Signal(max=512//ws+1)`. -/
def cntWidth (ws : Nat) : Nat := bits_for (512 / ws)

/-- Default (reset) values of all combinational outputs, before any FSM
statement drives them.  `tsc_load_value` is driven unconditionally (line
81); the CRI mux fields are overwritten unconditionally by `criMux`. -/
def defOut (s : St) (inp : Inp) : Out :=
  { packet_truncated := false
    unknown_packet_type := false
    tsc_load := false
    tsc_load_value := inp.set_time_timestamp
    cri_cmd := CriCmd.nop
    cri_chan_sel := 0
    cri_timestamp := 0
    cri_o_address := 0
    cri_o_data := (0, [])
    echo_req := false
    buffer_space_set := false
    buffer_space_ack := false
    buffer_space_update := false
    load_read_request := false
    clear_read_request := false
    write_data_buffer_load := false
    reset := false
    reset_phy := false
    ongoing_packet_next := false
    packet_buffer_load := false
    rx_next := s.rx
    tx_next := s.tx
    send := none }

/-- Combinational outputs of the RX dispatch FSM (`rx_fsm.act(...)`,
lines 114-172), including the dead truncation guard of the INPUT state,
which the source nests INSIDE `If(rx_dp.frame_r, ...)` (lines 115-135). -/
def rxComb (s : St) (inp : Inp) : Out :=
  let o0 := defOut s inp
  match s.rx with
  | RxState.INPUT =>
    if inp.frame_r then
      let oA := { o0 with packet_buffer_load := true }
      let oB :=
        if inp.packet_last then
          match inp.packet_type with
          | PacketType.echo_request => { oA with echo_req := true }
          | PacketType.set_time => { oA with rx_next := RxState.SET_TIME }
          | PacketType.reset => { oA with rx_next := RxState.RESET }
          | PacketType.write => { oA with rx_next := RxState.WRITE }
          | PacketType.buffer_space_request =>
              { oA with rx_next := RxState.BUFFER_SPACE }
          | PacketType.read_request =>
              { oA with rx_next := RxState.READ_REQUEST }
          | PacketType.other => { oA with unknown_packet_type := true }
        else
          { oA with ongoing_packet_next := true }
      if !inp.frame_r && s.ongoing_packet then
        { oB with packet_truncated := true }
      else oB
    else o0
  | RxState.SET_TIME =>
      { o0 with tsc_load := true, rx_next := RxState.INPUT }
  | RxState.RESET =>
      if inp.reset_phy then
        { o0 with reset_phy := true, rx_next := RxState.INPUT }
      else
        { o0 with reset := true, rx_next := RxState.INPUT }
  | RxState.WRITE =>
      if s.write_data_buffer_cnt = inp.write_extra_data_cnt then
        { o0 with cri_cmd := CriCmd.write, rx_next := RxState.INPUT }
      else
        let oA := { o0 with write_data_buffer_load := true }
        if !inp.frame_r then
          { oA with packet_truncated := true, rx_next := RxState.INPUT }
        else oA
  | RxState.BUFFER_SPACE =>
      { o0 with buffer_space_set := true, buffer_space_update := true,
                rx_next := RxState.INPUT }
  | RxState.READ_REQUEST =>
      { o0 with load_read_request := true, cri_cmd := CriCmd.read,
                rx_next := RxState.INPUT }

/-- Next TX state computed from IDLE (`tx_fsm.act("IDLE")`, lines 178-186),
with Migen last-assignment-wins semantics over the three sequential `If`
statements. -/
def idleNext (echo bufReq pending st0 st1 st2 : Bool) : TxState :=
  let n1 := if echo then TxState.ECHO else TxState.IDLE
  let n2 := if bufReq then TxState.BUFFER_SPACE else n1
  if pending then
    let n3 := if !st2 then TxState.READ else n2
    let n4 := if st0 then TxState.READ_TIMEOUT else n3
    if st1 then TxState.READ_OVERFLOW else n4
  else n2

/-- Combinational outputs of the TX reply FSM (`tx_fsm.act(...)`, lines
178-219), layered over the RX outputs `o` (it reads `echo_req` from them). -/
def txComb (s : St) (inp : Inp) (o : Out) : Out :=
  match s.tx with
  | TxState.IDLE =>
      { o with tx_next := idleNext o.echo_req s.buffer_space_req
                 s.read_request_pending inp.i_status_0 inp.i_status_1
                 inp.i_status_2 }
  | TxState.ECHO =>
      { o with send := some TxSend.echo_reply,
               tx_next := if inp.tx_packet_last then TxState.IDLE else o.tx_next }
  | TxState.BUFFER_SPACE =>
      { o with buffer_space_ack := true,
               send := some (TxSend.buffer_space_reply s.buffer_space),
               tx_next := if inp.tx_packet_last then TxState.IDLE else o.tx_next }
  | TxState.READ_TIMEOUT =>
      { o with send := some (TxSend.read_reply_noevent false),
               clear_read_request := true,
               tx_next := if inp.tx_packet_last then TxState.IDLE else o.tx_next }
  | TxState.READ_OVERFLOW =>
      { o with send := some (TxSend.read_reply_noevent true),
               clear_read_request := true,
               tx_next := if inp.tx_packet_last then TxState.IDLE else o.tx_next }
  | TxState.READ =>
      { o with send := some (TxSend.read_reply inp.i_timestamp inp.i_data),
               clear_read_request := true,
               tx_next := if inp.tx_packet_last then TxState.IDLE else o.tx_next }

/-- The unconditional combinational CRI assignments (lines 80-98): the
channel/timestamp mux between the read-request view and the write view,
the output address, and the output data concatenation. -/
def criMux (s : St) (inp : Inp) (o : Out) : Out :=
  { o with
    cri_chan_sel :=
      if o.load_read_request || s.read_request_pending then
        inp.read_request_channel
      else inp.write_channel
    cri_timestamp :=
      if o.load_read_request || s.read_request_pending then
        inp.read_request_timeout
      else inp.write_timestamp
    cri_o_address := inp.write_address
    cri_o_data := (inp.write_short_data, s.write_data_buffer) }

/-- All combinational outputs of one tick. -/
def comb (s : St) (inp : Inp) : Out :=
  criMux s inp (txComb s inp (rxComb s inp))

/-- Register update at the tick boundary (`self.sync` statements):
* `write_data_buffer` / `write_data_buffer_cnt` (lines 42-50): on load,
  store the word at the current count (the `Case` has no arm past the
  buffer capacity, so out-of-range stores do nothing, which is exactly
  `List.set`) and increment the counter in its `Signal(max=512//ws+1)`
  width; otherwise clear the counter (the buffer itself is kept);
* `buffer_space_req` (lines 57-60): set wins over ack (set is the later
  statement);
* `buffer_space` (line 64): snapshot `cri.o_buffer_space` on update;
* `read_request_pending` (lines 69-76): load wins over clear, and the
  registered `self.reset` output also clears it;
* the FSM state registers and the registered reset outputs (lines 102-105,
  112). -/
def syncStep (ws : Nat) (s : St) (inp : Inp) : St :=
  let o := comb s inp
  { rx := o.rx_next
    tx := o.tx_next
    write_data_buffer_cnt :=
      if o.write_data_buffer_load then
        (s.write_data_buffer_cnt + 1) % 2 ^ cntWidth ws
      else 0
    write_data_buffer :=
      if o.write_data_buffer_load then
        s.write_data_buffer.set s.write_data_buffer_cnt inp.data_r
      else s.write_data_buffer
    buffer_space_req :=
      if o.buffer_space_set then true
      else if o.buffer_space_ack then false
      else s.buffer_space_req
    buffer_space :=
      if o.buffer_space_update then inp.o_buffer_space else s.buffer_space
    read_request_pending :=
      if o.load_read_request then true
      else if o.clear_read_request || s.reset_out then false
      else s.read_request_pending
    ongoing_packet := o.ongoing_packet_next
    reset_out := o.reset
    reset_phy_out := o.reset_phy }

/-- Power-up state: FSMs in their reset states, all registers at their
reset values; `self.reset` and `self.reset_phy` have `reset=1`. -/
def initSt (ws : Nat) : St :=
  { rx := RxState.INPUT
    tx := TxState.IDLE
    write_data_buffer_cnt := 0
    write_data_buffer := List.replicate (512 / ws) 0
    buffer_space_req := false
    buffer_space := 0
    read_request_pending := false
    ongoing_packet := false
    reset_out := true
    reset_phy_out := true }

/-- Run `n` ticks from `s`, feeding tick `j` the input `f j`. -/
def runN (ws : Nat) (s : St) (f : Nat → Inp) : Nat → St
  | 0 => s
  | n + 1 => syncStep ws (runN ws s f n) (f n)

/-- Trace of the registered full-reset output along an input list. -/
def resetOuts (ws : Nat) (s : St) : List Inp → List Bool
  | [] => []
  | i :: rest =>
      let s2 := syncStep ws s i
      s2.reset_out :: resetOuts ws s2 rest

/-- An all-inactive input word: frame inactive, all fields zero. -/
def inp0 : Inp :=
  { frame_r := false
    packet_last := false
    packet_type := PacketType.other
    data_r := 0
    set_time_timestamp := 0
    reset_phy := false
    write_channel := 0
    write_timestamp := 0
    write_address := 0
    write_short_data := 0
    write_extra_data_cnt := 0
    read_request_channel := 0
    read_request_timeout := 0
    o_buffer_space := 0
    i_status_0 := false
    i_status_1 := false
    i_status_2 := false
    i_timestamp := 0
    i_data := 0
    tx_packet_last := false }

/-! ## Projection lemmas

`txComb` only drives `send`, `buffer_space_ack`, `clear_read_request` and
`tx_next`; `criMux` only drives the four CRI mux fields.  Every other
output of `comb` therefore coincides with the RX-side output. -/

theorem comb_packet_truncated (s : St) (inp : Inp) :
    (comb s inp).packet_truncated = (rxComb s inp).packet_truncated := by
  obtain ⟨rx, tx, cnt, buf, bsr, bs, rrp, ong, ro, rpo⟩ := s
  cases tx <;> rfl

theorem comb_unknown_packet_type (s : St) (inp : Inp) :
    (comb s inp).unknown_packet_type = (rxComb s inp).unknown_packet_type := by
  obtain ⟨rx, tx, cnt, buf, bsr, bs, rrp, ong, ro, rpo⟩ := s
  cases tx <;> rfl

theorem comb_tsc_load (s : St) (inp : Inp) :
    (comb s inp).tsc_load = (rxComb s inp).tsc_load := by
  obtain ⟨rx, tx, cnt, buf, bsr, bs, rrp, ong, ro, rpo⟩ := s
  cases tx <;> rfl

theorem comb_cri_cmd (s : St) (inp : Inp) :
    (comb s inp).cri_cmd = (rxComb s inp).cri_cmd := by
  obtain ⟨rx, tx, cnt, buf, bsr, bs, rrp, ong, ro, rpo⟩ := s
  cases tx <;> rfl

theorem comb_echo_req (s : St) (inp : Inp) :
    (comb s inp).echo_req = (rxComb s inp).echo_req := by
  obtain ⟨rx, tx, cnt, buf, bsr, bs, rrp, ong, ro, rpo⟩ := s
  cases tx <;> rfl

theorem comb_buffer_space_set (s : St) (inp : Inp) :
    (comb s inp).buffer_space_set = (rxComb s inp).buffer_space_set := by
  obtain ⟨rx, tx, cnt, buf, bsr, bs, rrp, ong, ro, rpo⟩ := s
  cases tx <;> rfl

theorem comb_buffer_space_update (s : St) (inp : Inp) :
    (comb s inp).buffer_space_update = (rxComb s inp).buffer_space_update := by
  obtain ⟨rx, tx, cnt, buf, bsr, bs, rrp, ong, ro, rpo⟩ := s
  cases tx <;> rfl

theorem comb_load_read_request (s : St) (inp : Inp) :
    (comb s inp).load_read_request = (rxComb s inp).load_read_request := by
  obtain ⟨rx, tx, cnt, buf, bsr, bs, rrp, ong, ro, rpo⟩ := s
  cases tx <;> rfl

theorem comb_write_data_buffer_load (s : St) (inp : Inp) :
    (comb s inp).write_data_buffer_load = (rxComb s inp).write_data_buffer_load := by
  obtain ⟨rx, tx, cnt, buf, bsr, bs, rrp, ong, ro, rpo⟩ := s
  cases tx <;> rfl

theorem comb_reset (s : St) (inp : Inp) :
    (comb s inp).reset = (rxComb s inp).reset := by
  obtain ⟨rx, tx, cnt, buf, bsr, bs, rrp, ong, ro, rpo⟩ := s
  cases tx <;> rfl

theorem comb_reset_phy (s : St) (inp : Inp) :
    (comb s inp).reset_phy = (rxComb s inp).reset_phy := by
  obtain ⟨rx, tx, cnt, buf, bsr, bs, rrp, ong, ro, rpo⟩ := s
  cases tx <;> rfl

theorem comb_ongoing_packet_next (s : St) (inp : Inp) :
    (comb s inp).ongoing_packet_next = (rxComb s inp).ongoing_packet_next := by
  obtain ⟨rx, tx, cnt, buf, bsr, bs, rrp, ong, ro, rpo⟩ := s
  cases tx <;> rfl

theorem comb_rx_next (s : St) (inp : Inp) :
    (comb s inp).rx_next = (rxComb s inp).rx_next := by
  obtain ⟨rx, tx, cnt, buf, bsr, bs, rrp, ong, ro, rpo⟩ := s
  cases tx <;> rfl

theorem comb_send (s : St) (inp : Inp) :
    (comb s inp).send = (txComb s inp (rxComb s inp)).send := rfl

theorem comb_clear_read_request (s : St) (inp : Inp) :
    (comb s inp).clear_read_request
      = (txComb s inp (rxComb s inp)).clear_read_request := rfl

theorem comb_buffer_space_ack (s : St) (inp : Inp) :
    (comb s inp).buffer_space_ack
      = (txComb s inp (rxComb s inp)).buffer_space_ack := rfl

theorem comb_tx_next (s : St) (inp : Inp) :
    (comb s inp).tx_next = (txComb s inp (rxComb s inp)).tx_next := rfl

theorem comb_cri_chan_sel (s : St) (inp : Inp) :
    (comb s inp).cri_chan_sel
      = (if (rxComb s inp).load_read_request || s.read_request_pending then
           inp.read_request_channel
         else inp.write_channel) := by
  obtain ⟨rx, tx, cnt, buf, bsr, bs, rrp, ong, ro, rpo⟩ := s
  cases tx <;> rfl

theorem comb_cri_timestamp (s : St) (inp : Inp) :
    (comb s inp).cri_timestamp
      = (if (rxComb s inp).load_read_request || s.read_request_pending then
           inp.read_request_timeout
         else inp.write_timestamp) := by
  obtain ⟨rx, tx, cnt, buf, bsr, bs, rrp, ong, ro, rpo⟩ := s
  cases tx <;> rfl

/-! ## syncStep projections -/

theorem syncStep_rx (ws : Nat) (s : St) (inp : Inp) :
    (syncStep ws s inp).rx = (comb s inp).rx_next := rfl

theorem syncStep_tx (ws : Nat) (s : St) (inp : Inp) :
    (syncStep ws s inp).tx = (comb s inp).tx_next := rfl

theorem syncStep_reset_out (ws : Nat) (s : St) (inp : Inp) :
    (syncStep ws s inp).reset_out = (comb s inp).reset := rfl

theorem syncStep_reset_phy_out (ws : Nat) (s : St) (inp : Inp) :
    (syncStep ws s inp).reset_phy_out = (comb s inp).reset_phy := rfl

theorem syncStep_ongoing_packet (ws : Nat) (s : St) (inp : Inp) :
    (syncStep ws s inp).ongoing_packet = (comb s inp).ongoing_packet_next := rfl

theorem syncStep_read_request_pending (ws : Nat) (s : St) (inp : Inp) :
    (syncStep ws s inp).read_request_pending
      = (if (comb s inp).load_read_request then true
         else if (comb s inp).clear_read_request || s.reset_out then false
         else s.read_request_pending) := rfl

theorem syncStep_buffer_space (ws : Nat) (s : St) (inp : Inp) :
    (syncStep ws s inp).buffer_space
      = (if (comb s inp).buffer_space_update then inp.o_buffer_space
         else s.buffer_space) := rfl

theorem syncStep_buffer_space_req (ws : Nat) (s : St) (inp : Inp) :
    (syncStep ws s inp).buffer_space_req
      = (if (comb s inp).buffer_space_set then true
         else if (comb s inp).buffer_space_ack then false
         else s.buffer_space_req) := rfl

theorem syncStep_write_data_buffer_cnt (ws : Nat) (s : St) (inp : Inp) :
    (syncStep ws s inp).write_data_buffer_cnt
      = (if (comb s inp).write_data_buffer_load then
           (s.write_data_buffer_cnt + 1) % 2 ^ cntWidth ws
         else 0) := rfl

theorem syncStep_write_data_buffer (ws : Nat) (s : St) (inp : Inp) :
    (syncStep ws s inp).write_data_buffer
      = (if (comb s inp).write_data_buffer_load then
           s.write_data_buffer.set s.write_data_buffer_cnt inp.data_r
         else s.write_data_buffer) := rfl

/-! ## Characterizations of the RX combinational outputs -/

/-- The combinational full-reset signal is driven exactly in the RESET
dispatch state when the decoded phy flag is clear. -/
theorem rxComb_reset_iff (s : St) (inp : Inp) :
    ((rxComb s inp).reset = true)
      ↔ (s.rx = RxState.RESET ∧ inp.reset_phy = false) := by
  obtain ⟨rx, tx, cnt, buf, bsr, bs, rrp, ong, ro, rpo⟩ := s
  obtain ⟨f, l, t, d, w1, rp, w2, w3, w4, w5, w6, w7, w8, w9, s0, s1, s2, w10, w11, tpl⟩ := inp
  cases rx
  case INPUT => cases f <;> cases l <;> cases t <;> simp [rxComb, defOut]
  case SET_TIME => simp [rxComb, defOut]
  case RESET => cases rp <;> simp [rxComb, defOut]
  case WRITE => by_cases hc : cnt = w6 <;> cases f <;> simp [rxComb, defOut, hc]
  case BUFFER_SPACE => simp [rxComb, defOut]
  case READ_REQUEST => simp [rxComb, defOut]

/-- The combinational phy-reset signal is driven exactly in the RESET
dispatch state when the decoded phy flag is set. -/
theorem rxComb_reset_phy_iff (s : St) (inp : Inp) :
    ((rxComb s inp).reset_phy = true)
      ↔ (s.rx = RxState.RESET ∧ inp.reset_phy = true) := by
  obtain ⟨rx, tx, cnt, buf, bsr, bs, rrp, ong, ro, rpo⟩ := s
  obtain ⟨f, l, t, d, w1, rp, w2, w3, w4, w5, w6, w7, w8, w9, s0, s1, s2, w10, w11, tpl⟩ := inp
  cases rx
  case INPUT => cases f <;> cases l <;> cases t <;> simp [rxComb, defOut]
  case SET_TIME => simp [rxComb, defOut]
  case RESET => cases rp <;> simp [rxComb, defOut]
  case WRITE => by_cases hc : cnt = w6 <;> cases f <;> simp [rxComb, defOut, hc]
  case BUFFER_SPACE => simp [rxComb, defOut]
  case READ_REQUEST => simp [rxComb, defOut]

/-- The RX FSM enters RESET exactly from INPUT on a completed frame whose
decoded type is the reset code. -/
theorem rxComb_rx_next_reset_iff (s : St) (inp : Inp) :
    ((rxComb s inp).rx_next = RxState.RESET)
      ↔ (s.rx = RxState.INPUT ∧ inp.frame_r = true ∧ inp.packet_last = true ∧
         inp.packet_type = PacketType.reset) := by
  obtain ⟨rx, tx, cnt, buf, bsr, bs, rrp, ong, ro, rpo⟩ := s
  obtain ⟨f, l, t, d, w1, rp, w2, w3, w4, w5, w6, w7, w8, w9, s0, s1, s2, w10, w11, tpl⟩ := inp
  cases rx
  case INPUT => cases f <;> cases l <;> cases t <;> simp [rxComb, defOut]
  case SET_TIME => simp [rxComb, defOut]
  case RESET => cases rp <;> simp [rxComb, defOut]
  case WRITE => by_cases hc : cnt = w6 <;> cases f <;> simp [rxComb, defOut, hc]
  case BUFFER_SPACE => simp [rxComb, defOut]
  case READ_REQUEST => simp [rxComb, defOut]

/-- From the WRITE dispatch state the RX FSM either stays in WRITE or
returns to INPUT. -/
theorem rxComb_rx_next_write (s : St) (inp : Inp) (h : s.rx = RxState.WRITE) :
    (rxComb s inp).rx_next = RxState.WRITE
      ∨ (rxComb s inp).rx_next = RxState.INPUT := by
  obtain ⟨rx, tx, cnt, buf, bsr, bs, rrp, ong, ro, rpo⟩ := s
  obtain ⟨f, l, t, d, w1, rp, w2, w3, w4, w5, w6, w7, w8, w9, s0, s1, s2, w10, w11, tpl⟩ := inp
  subst h
  by_cases hc : cnt = w6 <;> cases f <;> simp [rxComb, defOut, hc]

/-- In the INPUT dispatch state the truncation output can never be driven:
the guard that would drive it is nested inside the frame-active branch. -/
theorem rxComb_input_truncated (s : St) (inp : Inp) (h : s.rx = RxState.INPUT) :
    (rxComb s inp).packet_truncated = false := by
  obtain ⟨rx, tx, cnt, buf, bsr, bs, rrp, ong, ro, rpo⟩ := s
  obtain ⟨f, l, t, d, w1, rp, w2, w3, w4, w5, w6, w7, w8, w9, s0, s1, s2, w10, w11, tpl⟩ := inp
  subst h
  cases f <;> cases l <;> cases t <;> simp [rxComb, defOut]

/-- The write data buffer loads exactly in the WRITE dispatch state while
the accumulated count differs from the declared extra word count. -/
theorem rxComb_load_iff (s : St) (inp : Inp) :
    ((rxComb s inp).write_data_buffer_load = true)
      ↔ (s.rx = RxState.WRITE ∧
         s.write_data_buffer_cnt ≠ inp.write_extra_data_cnt) := by
  obtain ⟨rx, tx, cnt, buf, bsr, bs, rrp, ong, ro, rpo⟩ := s
  obtain ⟨f, l, t, d, w1, rp, w2, w3, w4, w5, w6, w7, w8, w9, s0, s1, s2, w10, w11, tpl⟩ := inp
  cases rx
  case INPUT => cases f <;> cases l <;> cases t <;> simp [rxComb, defOut]
  case SET_TIME => simp [rxComb, defOut]
  case RESET => cases rp <;> simp [rxComb, defOut]
  case WRITE => by_cases hc : cnt = w6 <;> cases f <;> simp [rxComb, defOut, hc]
  case BUFFER_SPACE => simp [rxComb, defOut]
  case READ_REQUEST => simp [rxComb, defOut]

/-- A write command is issued exactly in the WRITE dispatch state when the
accumulated count equals the declared extra word count. -/
theorem rxComb_cmd_write_iff (s : St) (inp : Inp) :
    ((rxComb s inp).cri_cmd = CriCmd.write)
      ↔ (s.rx = RxState.WRITE ∧
         s.write_data_buffer_cnt = inp.write_extra_data_cnt) := by
  obtain ⟨rx, tx, cnt, buf, bsr, bs, rrp, ong, ro, rpo⟩ := s
  obtain ⟨f, l, t, d, w1, rp, w2, w3, w4, w5, w6, w7, w8, w9, s0, s1, s2, w10, w11, tpl⟩ := inp
  cases rx
  case INPUT => cases f <;> cases l <;> cases t <;> simp [rxComb, defOut]
  case SET_TIME => simp [rxComb, defOut]
  case RESET => cases rp <;> simp [rxComb, defOut]
  case WRITE => by_cases hc : cnt = w6 <;> cases f <;> simp [rxComb, defOut, hc]
  case BUFFER_SPACE => simp [rxComb, defOut]
  case READ_REQUEST => simp [rxComb, defOut]

/-- The read-request load pulse is driven exactly in the READ_REQUEST
dispatch state. -/
theorem rxComb_load_read_request_iff (s : St) (inp : Inp) :
    ((rxComb s inp).load_read_request = true) ↔ s.rx = RxState.READ_REQUEST := by
  obtain ⟨rx, tx, cnt, buf, bsr, bs, rrp, ong, ro, rpo⟩ := s
  obtain ⟨f, l, t, d, w1, rp, w2, w3, w4, w5, w6, w7, w8, w9, s0, s1, s2, w10, w11, tpl⟩ := inp
  cases rx
  case INPUT => cases f <;> cases l <;> cases t <;> simp [rxComb, defOut]
  case SET_TIME => simp [rxComb, defOut]
  case RESET => cases rp <;> simp [rxComb, defOut]
  case WRITE => by_cases hc : cnt = w6 <;> cases f <;> simp [rxComb, defOut, hc]
  case BUFFER_SPACE => simp [rxComb, defOut]
  case READ_REQUEST => simp [rxComb, defOut]

/-- Comb-level wrapper of `rxComb_reset_iff`. -/
theorem comb_reset_iff (s : St) (inp : Inp) :
    ((comb s inp).reset = true)
      ↔ (s.rx = RxState.RESET ∧ inp.reset_phy = false) := by
  rw [comb_reset]; exact rxComb_reset_iff s inp

/-- Comb-level wrapper of `rxComb_reset_phy_iff`. -/
theorem comb_reset_phy_iff (s : St) (inp : Inp) :
    ((comb s inp).reset_phy = true)
      ↔ (s.rx = RxState.RESET ∧ inp.reset_phy = true) := by
  rw [comb_reset_phy]; exact rxComb_reset_phy_iff s inp

/-! ## TX IDLE dispatch -/

/-- Priority-ordered reading of the IDLE dispatch: with Migen
last-assignment-wins semantics, the read-outcome conditions dominate the
buffer-space request, which dominates the echo pulse (within the read
block, overflow dominates timeout dominates completion). -/
def idleDispatch (echo bufReq pending st0 st1 st2 : Bool) : TxState :=
  if pending && st1 then TxState.READ_OVERFLOW
  else if pending && st0 then TxState.READ_TIMEOUT
  else if pending && !st2 then TxState.READ
  else if bufReq then TxState.BUFFER_SPACE
  else if echo then TxState.ECHO
  else TxState.IDLE

theorem idleNext_eq_idleDispatch :
    ∀ e b p s0 s1 s2 : Bool, idleNext e b p s0 s1 s2 = idleDispatch e b p s0 s1 s2 := by
  decide

theorem idleNext_timeout :
    ∀ e b s2 : Bool, idleNext e b true true false s2 = TxState.READ_TIMEOUT := by
  decide

theorem idleNext_overflow :
    ∀ e b s0 s2 : Bool, idleNext e b true s0 true s2 = TxState.READ_OVERFLOW := by
  decide

theorem idleNext_read :
    ∀ e b : Bool, idleNext e b true false false false = TxState.READ := by
  decide

/-- In the IDLE reply state the next TX state is the IDLE dispatch applied
to the echo pulse, the two latches and the CRI status bits. -/
theorem comb_tx_next_idle (s : St) (inp : Inp) (h : s.tx = TxState.IDLE) :
    (comb s inp).tx_next
      = idleNext (comb s inp).echo_req s.buffer_space_req
          s.read_request_pending inp.i_status_0 inp.i_status_1 inp.i_status_2 := by
  obtain ⟨rx, tx, cnt, buf, bsr, bs, rrp, ong, ro, rpo⟩ := s
  subst h
  rw [comb_echo_req]
  rfl

/-! ## More RX characterizations -/

/-- The buffer-space set pulse is driven exactly in the BUFFER_SPACE
dispatch state. -/
theorem rxComb_buffer_space_set_iff (s : St) (inp : Inp) :
    ((rxComb s inp).buffer_space_set = true) ↔ s.rx = RxState.BUFFER_SPACE := by
  obtain ⟨rx, tx, cnt, buf, bsr, bs, rrp, ong, ro, rpo⟩ := s
  obtain ⟨f, l, t, d, w1, rp, w2, w3, w4, w5, w6, w7, w8, w9, s0, s1, s2, w10, w11, tpl⟩ := inp
  cases rx
  case INPUT => cases f <;> cases l <;> cases t <;> simp [rxComb, defOut]
  case SET_TIME => simp [rxComb, defOut]
  case RESET => cases rp <;> simp [rxComb, defOut]
  case WRITE => by_cases hc : cnt = w6 <;> cases f <;> simp [rxComb, defOut, hc]
  case BUFFER_SPACE => simp [rxComb, defOut]
  case READ_REQUEST => simp [rxComb, defOut]

/-- The buffer-space snapshot pulse is driven exactly in the BUFFER_SPACE
dispatch state. -/
theorem rxComb_buffer_space_update_iff (s : St) (inp : Inp) :
    ((rxComb s inp).buffer_space_update = true) ↔ s.rx = RxState.BUFFER_SPACE := by
  obtain ⟨rx, tx, cnt, buf, bsr, bs, rrp, ong, ro, rpo⟩ := s
  obtain ⟨f, l, t, d, w1, rp, w2, w3, w4, w5, w6, w7, w8, w9, s0, s1, s2, w10, w11, tpl⟩ := inp
  cases rx
  case INPUT => cases f <;> cases l <;> cases t <;> simp [rxComb, defOut]
  case SET_TIME => simp [rxComb, defOut]
  case RESET => cases rp <;> simp [rxComb, defOut]
  case WRITE => by_cases hc : cnt = w6 <;> cases f <;> simp [rxComb, defOut, hc]
  case BUFFER_SPACE => simp [rxComb, defOut]
  case READ_REQUEST => simp [rxComb, defOut]

/-- In the INPUT state the write buffer load pulse is never driven. -/
theorem comb_input_load (s : St) (inp : Inp) (h : s.rx = RxState.INPUT) :
    (comb s inp).write_data_buffer_load = false := by
  rcases hb : (comb s inp).write_data_buffer_load with _ | _
  · rfl
  · rw [comb_write_data_buffer_load] at hb
    have h2 := ((rxComb_load_iff s inp).mp hb).1
    rw [h] at h2
    exact RxState.noConfusion h2

/-- WRITE state, count below the declared extra word count: load another
word, no command; truncate and bail out exactly when the frame is down. -/
theorem comb_write_miss (s : St) (inp : Inp) (h : s.rx = RxState.WRITE)
    (hne : s.write_data_buffer_cnt ≠ inp.write_extra_data_cnt) :
    (comb s inp).cri_cmd = CriCmd.nop ∧
    (comb s inp).write_data_buffer_load = true ∧
    (comb s inp).packet_truncated = (!inp.frame_r) ∧
    (comb s inp).rx_next = (if inp.frame_r then RxState.WRITE else RxState.INPUT) := by
  obtain ⟨rx, tx, cnt, buf, bsr, bs, rrp, ong, ro, rpo⟩ := s
  obtain ⟨f, l, t, d, w1, rp, w2, w3, w4, w5, w6, w7, w8, w9, s0, s1, s2, w10, w11, tpl⟩ := inp
  subst h
  cases f <;>
    simp [comb_cri_cmd, comb_write_data_buffer_load, comb_packet_truncated,
          comb_rx_next, rxComb, defOut, hne]

/-- WRITE state, count equal to the declared extra word count: issue the
write command and return to INPUT. -/
theorem comb_write_hit (s : St) (inp : Inp) (h : s.rx = RxState.WRITE)
    (he : s.write_data_buffer_cnt = inp.write_extra_data_cnt) :
    (comb s inp).cri_cmd = CriCmd.write ∧
    (comb s inp).write_data_buffer_load = false ∧
    (comb s inp).packet_truncated = false ∧
    (comb s inp).rx_next = RxState.INPUT := by
  obtain ⟨rx, tx, cnt, buf, bsr, bs, rrp, ong, ro, rpo⟩ := s
  obtain ⟨f, l, t, d, w1, rp, w2, w3, w4, w5, w6, w7, w8, w9, s0, s1, s2, w10, w11, tpl⟩ := inp
  subst h
  have he2 : cnt = w6 := he
  simp [comb_cri_cmd, comb_write_data_buffer_load, comb_packet_truncated,
        comb_rx_next, rxComb, defOut, he2]

theorem runN_succ (ws : Nat) (s : St) (f : Nat → Inp) (n : Nat) :
    runN ws s f (n + 1) = syncStep ws (runN ws s f n) (f n) := rfl

/-- Invariant of a WRITE burst: starting in WRITE with a cleared counter
and a constant declared extra word count `k`, as long as the frame stays
up the FSM stays in WRITE and the counter equals the tick index. -/
theorem writeRun (ws k : Nat) (f : Nat → Inp) (s : St)
    (hrx : s.rx = RxState.WRITE) (hcnt : s.write_data_buffer_cnt = 0)
    (hk : k < 2 ^ cntWidth ws)
    (hext : ∀ j, (f j).write_extra_data_cnt = k) :
    ∀ j, j ≤ k → (∀ i, i < j → (f i).frame_r = true) →
      (runN ws s f j).rx = RxState.WRITE ∧
      (runN ws s f j).write_data_buffer_cnt = j := by
  intro j
  induction j with
  | zero => intro _ _; exact ⟨hrx, hcnt⟩
  | succ n ih =>
    intro hle hframes
    have hnk : n < k := Nat.lt_of_succ_le hle
    obtain ⟨ihrx, ihcnt⟩ :=
      ih (Nat.le_of_lt hnk) (fun i hi => hframes i (Nat.lt_succ_of_lt hi))
    have hne : (runN ws s f n).write_data_buffer_cnt
        ≠ (f n).write_extra_data_cnt := by
      rw [ihcnt, hext n]; exact Nat.ne_of_lt hnk
    have hmiss := comb_write_miss (runN ws s f n) (f n) ihrx hne
    have hfr : (f n).frame_r = true := hframes n (Nat.lt_succ_self n)
    constructor
    · rw [runN_succ, syncStep_rx, hmiss.2.2.2, hfr]
      rfl
    · rw [runN_succ, syncStep_write_data_buffer_cnt, hmiss.2.1, ihcnt]
      simp only [if_true]
      exact Nat.mod_eq_of_lt (Nat.lt_of_le_of_lt hle hk)

/-! ## Claim theorems -/

/-- C10: at power-up both registered reset outputs are asserted (their
initial value is 1); after the first tick they are deasserted, and in
general each registered reset output is asserted exactly in the tick that
follows a pass through the RESET dispatch state with the corresponding
decoded phy flag. -/
theorem c10_power_up_reset (ws : Nat) (s : St) (inp : Inp) :
    (initSt ws).reset_out = true ∧ (initSt ws).reset_phy_out = true ∧
    (syncStep ws (initSt ws) inp).reset_out = false ∧
    (syncStep ws (initSt ws) inp).reset_phy_out = false ∧
    ((syncStep ws s inp).reset_out = true ↔
      (s.rx = RxState.RESET ∧ inp.reset_phy = false)) ∧
    ((syncStep ws s inp).reset_phy_out = true ↔
      (s.rx = RxState.RESET ∧ inp.reset_phy = true)) := by
  refine ⟨rfl, rfl, ?_, ?_, ?_, ?_⟩
  · obtain ⟨f, l, t, d, w1, rp, w2, w3, w4, w5, w6, w7, w8, w9, s0, s1, s2, w10, w11, tpl⟩ := inp
    cases f <;> cases l <;> cases t <;> rfl
  · obtain ⟨f, l, t, d, w1, rp, w2, w3, w4, w5, w6, w7, w8, w9, s0, s1, s2, w10, w11, tpl⟩ := inp
    cases f <;> cases l <;> cases t <;> rfl
  · rw [syncStep_reset_out]; exact comb_reset_iff s inp
  · rw [syncStep_reset_phy_out]; exact comb_reset_phy_iff s inp

/-- C8: the combinational reset signals are driven only in the RESET
dispatch state; the RESET state is entered only from INPUT on a completed
frame decoding to the reset type; and while the FSM is in WRITE no reset
output is pulsed and the FSM stays in WRITE or returns to INPUT. -/
theorem c8_reset_scope (ws : Nat) (s : St) (inp : Inp) :
    (((comb s inp).reset = true ∨ (comb s inp).reset_phy = true) ↔
       s.rx = RxState.RESET) ∧
    ((syncStep ws s inp).rx = RxState.RESET ↔
      (s.rx = RxState.INPUT ∧ inp.frame_r = true ∧ inp.packet_last = true ∧
       inp.packet_type = PacketType.reset)) ∧
    (s.rx = RxState.WRITE →
      (syncStep ws s inp).reset_out = false ∧
      (syncStep ws s inp).reset_phy_out = false ∧
      ((syncStep ws s inp).rx = RxState.WRITE ∨
       (syncStep ws s inp).rx = RxState.INPUT)) := by
  refine ⟨⟨?_, ?_⟩, ?_, ?_⟩
  · rintro (h | h)
    · exact ((comb_reset_iff s inp).mp h).1
    · exact ((comb_reset_phy_iff s inp).mp h).1
  · intro h
    rcases hrp : inp.reset_phy with _ | _
    · exact Or.inl ((comb_reset_iff s inp).mpr ⟨h, hrp⟩)
    · exact Or.inr ((comb_reset_phy_iff s inp).mpr ⟨h, hrp⟩)
  · rw [syncStep_rx, comb_rx_next]
    exact rxComb_rx_next_reset_iff s inp
  · intro h
    refine ⟨?_, ?_, ?_⟩
    · rw [syncStep_reset_out]
      rcases hb : (comb s inp).reset with _ | _
      · rfl
      · have h2 := ((comb_reset_iff s inp).mp hb).1
        rw [h] at h2
        exact RxState.noConfusion h2
    · rw [syncStep_reset_phy_out]
      rcases hb : (comb s inp).reset_phy with _ | _
      · rfl
      · have h2 := ((comb_reset_phy_iff s inp).mp hb).1
        rw [h] at h2
        exact RxState.noConfusion h2
    · rw [syncStep_rx, comb_rx_next]
      exact rxComb_rx_next_write s inp h

/-- Witness for C8 at a concrete state in WRITE with an idle input word. -/
theorem c8_witness :
    (syncStep 32 { initSt 32 with rx := RxState.WRITE } inp0).reset_out = false ∧
    ((syncStep 32 { initSt 32 with rx := RxState.WRITE } inp0).rx = RxState.WRITE ∨
     (syncStep 32 { initSt 32 with rx := RxState.WRITE } inp0).rx = RxState.INPUT) := by
  have h := (c8_reset_scope 32 { initSt 32 with rx := RxState.WRITE } inp0).2.2 rfl
  exact ⟨h.1, h.2.2⟩

/-- Input trace for C2: one frame word accepted without a packet boundary,
then the frame deasserts with the packet still in progress. -/
def fC2 : Nat → Inp := fun n => if n = 0 then { inp0 with frame_r := true } else inp0

/-- C2 (code evaluated at the failing input): after a word of a packet was
accepted in INPUT (`ongoing_packet` latched) and the frame deasserts before
the declared boundary, the in-progress packet is abandoned and no command
is issued, but `packet_truncated` is NOT asserted: the guard that should
drive it is nested inside the frame-active branch and can never fire. -/
theorem c2_truncation_dead_in_input :
    (runN 32 (initSt 32) fC2 1).rx = RxState.INPUT ∧
    (runN 32 (initSt 32) fC2 1).ongoing_packet = true ∧
    (fC2 1).frame_r = false ∧
    (comb (runN 32 (initSt 32) fC2 1) (fC2 1)).packet_truncated = false ∧
    (comb (runN 32 (initSt 32) fC2 1) (fC2 1)).cri_cmd = CriCmd.nop ∧
    (runN 32 (initSt 32) fC2 2).ongoing_packet = false := by
  decide

/-- A completed Reset packet word with the phy flag clear. -/
def rstPkt : Inp :=
  { inp0 with frame_r := true, packet_last := true, packet_type := PacketType.reset }

/-- Input trace carrying two Reset packets separated by idle ticks. -/
def twoResetTrace : List Inp := [rstPkt, inp0, inp0, rstPkt, inp0, inp0]

/-- C7: in the RESET dispatch state exactly one of the combinational reset
signals pulses, selected by the decoded phy flag; the FSM returns to INPUT;
no command, timestamp load, error flag, handshake pulse or buffer load is
driven, and the buffer-space and write-buffer registers are untouched.
Two consecutive Reset packets with phy clear each produce exactly one
independent full-reset output pulse. -/
theorem c7_reset_packet (ws : Nat) (s : St) (inp : Inp) :
    (s.rx = RxState.RESET →
      (comb s inp).reset = (!inp.reset_phy) ∧
      (comb s inp).reset_phy = inp.reset_phy ∧
      (comb s inp).rx_next = RxState.INPUT ∧
      (comb s inp).cri_cmd = CriCmd.nop ∧
      (comb s inp).tsc_load = false ∧
      (comb s inp).packet_truncated = false ∧
      (comb s inp).unknown_packet_type = false ∧
      (comb s inp).echo_req = false ∧
      (comb s inp).buffer_space_set = false ∧
      (comb s inp).buffer_space_update = false ∧
      (comb s inp).load_read_request = false ∧
      (comb s inp).write_data_buffer_load = false ∧
      (syncStep ws s inp).buffer_space = s.buffer_space ∧
      (syncStep ws s inp).write_data_buffer = s.write_data_buffer) ∧
    resetOuts 32 (initSt 32) twoResetTrace = [false, true, false, false, true, false] := by
  refine ⟨?_, by decide⟩
  intro h
  obtain ⟨rx, tx, cnt, buf, bsr, bs, rrp, ong, ro, rpo⟩ := s
  obtain ⟨f, l, t, d, w1, rp, w2, w3, w4, w5, w6, w7, w8, w9, s0, s1, s2, w10, w11, tpl⟩ := inp
  subst h
  cases rp <;> cases tx <;>
    exact ⟨rfl, rfl, rfl, rfl, rfl, rfl, rfl, rfl, rfl, rfl, rfl, rfl, rfl, rfl⟩

/-- Witness for C7 at a concrete RESET-state tick with the phy flag clear. -/
theorem c7_witness :
    (comb { initSt 32 with rx := RxState.RESET } inp0).reset = true ∧
    (comb { initSt 32 with rx := RxState.RESET } inp0).reset_phy = false ∧
    (comb { initSt 32 with rx := RxState.RESET } inp0).rx_next = RxState.INPUT := by
  have h := (c7_reset_packet 32 { initSt 32 with rx := RxState.RESET } inp0).1 rfl
  exact ⟨h.1, h.2.1, h.2.2.1⟩

/-- State for the C1 counterexample: reply FSM in IDLE, buffer-space
request latched, read request pending. -/
def sC1 : St :=
  { initSt 32 with buffer_space_req := true, read_request_pending := true,
                   reset_out := false, reset_phy_out := false }

/-- Input for the C1 counterexample: an EchoRequest packet completes this
tick and the CRI status shows the read resolved (no timeout, no overflow,
not pending). -/
def iC1 : Inp :=
  { inp0 with frame_r := true, packet_last := true,
              packet_type := PacketType.echo_request }

/-- C1 counterexample: with the echo pulse, the buffer-space latch and a
resolved pending read all simultaneously true at IDLE, the transition taken
is READ, not ECHO — the echo request does NOT take precedence. -/
theorem c1_counterexample :
    sC1.tx = TxState.IDLE ∧
    (comb sC1 iC1).echo_req = true ∧
    sC1.buffer_space_req = true ∧
    sC1.read_request_pending = true ∧
    iC1.i_status_0 = false ∧ iC1.i_status_1 = false ∧ iC1.i_status_2 = false ∧
    (comb sC1 iC1).tx_next = TxState.READ ∧
    ¬(comb sC1 iC1).tx_next = TxState.ECHO := by
  decide

/-- C1 (amended): from IDLE the dispatch priority is the reverse of the
claimed one — a pending read request with resolved or erroneous status
takes precedence over a pending buffer-space request, which takes
precedence over an echo pulse (inside the read block, overflow dominates
timeout dominates completion); only that single transition fires. -/
theorem c1_amended (s : St) (inp : Inp) (h : s.tx = TxState.IDLE) :
    (comb s inp).tx_next
      = idleDispatch (comb s inp).echo_req s.buffer_space_req
          s.read_request_pending inp.i_status_0 inp.i_status_1 inp.i_status_2 := by
  rw [comb_tx_next_idle s inp h]
  exact idleNext_eq_idleDispatch _ _ _ _ _ _

/-- Witness for C1 (amended) at the counterexample state and input. -/
theorem c1_amended_witness :
    (comb sC1 iC1).tx_next
      = idleDispatch (comb sC1 iC1).echo_req sC1.buffer_space_req
          sC1.read_request_pending iC1.i_status_0 iC1.i_status_1 iC1.i_status_2 :=
  c1_amended sC1 iC1 rfl

/-- C4: with a pending read request at IDLE, a timed-out status dispatches
to READ_TIMEOUT, an overflowed status to READ_OVERFLOW, and a resolved
error-free status to READ; the three outcome states emit the corresponding
replies (`read_reply_noevent` with overflow 0 resp. 1, and `read_reply`
carrying the CRI result timestamp and data) and each drives the clear pulse
that deasserts the pending flag on the next tick. -/
theorem c4_read_outcomes (ws : Nat) (s : St) (inp : Inp) :
    (s.tx = TxState.IDLE → s.read_request_pending = true →
      (inp.i_status_0 = true → inp.i_status_1 = false →
        (comb s inp).tx_next = TxState.READ_TIMEOUT) ∧
      (inp.i_status_1 = true →
        (comb s inp).tx_next = TxState.READ_OVERFLOW) ∧
      (inp.i_status_0 = false → inp.i_status_1 = false →
        inp.i_status_2 = false → (comb s inp).tx_next = TxState.READ)) ∧
    (s.tx = TxState.READ_TIMEOUT →
      (comb s inp).send = some (TxSend.read_reply_noevent false) ∧
      (comb s inp).clear_read_request = true) ∧
    (s.tx = TxState.READ_OVERFLOW →
      (comb s inp).send = some (TxSend.read_reply_noevent true) ∧
      (comb s inp).clear_read_request = true) ∧
    (s.tx = TxState.READ →
      (comb s inp).send = some (TxSend.read_reply inp.i_timestamp inp.i_data) ∧
      (comb s inp).clear_read_request = true) ∧
    ((s.tx = TxState.READ_TIMEOUT ∨ s.tx = TxState.READ_OVERFLOW ∨
      s.tx = TxState.READ) → s.rx ≠ RxState.READ_REQUEST →
      (syncStep ws s inp).read_request_pending = false) := by
  refine ⟨?_, ?_, ?_, ?_, ?_⟩
  · intro hidle hp
    refine ⟨?_, ?_, ?_⟩
    · intro h0 h1
      rw [comb_tx_next_idle s inp hidle, hp, h0, h1]
      exact idleNext_timeout _ _ _
    · intro h1
      rw [comb_tx_next_idle s inp hidle, hp, h1]
      exact idleNext_overflow _ _ _ _
    · intro h0 h1 h2
      rw [comb_tx_next_idle s inp hidle, hp, h0, h1, h2]
      exact idleNext_read _ _
  · intro h
    obtain ⟨rx, tx, cnt, buf, bsr, bs, rrp, ong, ro, rpo⟩ := s
    subst h
    exact ⟨rfl, rfl⟩
  · intro h
    obtain ⟨rx, tx, cnt, buf, bsr, bs, rrp, ong, ro, rpo⟩ := s
    subst h
    exact ⟨rfl, rfl⟩
  · intro h
    obtain ⟨rx, tx, cnt, buf, bsr, bs, rrp, ong, ro, rpo⟩ := s
    subst h
    exact ⟨rfl, rfl⟩
  · intro hor hrx
    have hload : (comb s inp).load_read_request = false := by
      rcases hb : (comb s inp).load_read_request with _ | _
      · rfl
      · rw [comb_load_read_request] at hb
        exact absurd ((rxComb_load_read_request_iff s inp).mp hb) hrx
    have hclear : (comb s inp).clear_read_request = true := by
      obtain ⟨rx, tx, cnt, buf, bsr, bs, rrp, ong, ro, rpo⟩ := s
      rcases hor with h | h | h <;> (subst h; rfl)
    rw [syncStep_read_request_pending, hload, hclear]
    simp

/-- Witness for C4: pending read at IDLE with a timed-out status. -/
theorem c4_witness :
    (comb { initSt 32 with read_request_pending := true }
       { inp0 with i_status_0 := true }).tx_next = TxState.READ_TIMEOUT :=
  ((c4_read_outcomes 32 { initSt 32 with read_request_pending := true }
      { inp0 with i_status_0 := true }).1 rfl rfl).1 rfl rfl

/-- C5: the READ_REQUEST dispatch state drives the load pulse, issues a
read command whose channel and timestamp are the currently decoded
request's channel and timeout, and sets the pending flag unconditionally
(the load statement wins over any simultaneous clear or reset); moreover,
whenever the load pulse or the pending flag is up, the CRI channel and
timestamp outputs track the CURRENT decoded request fields — the single
slot stores no copy of an earlier request. -/
theorem c5_read_request_slot (ws : Nat) (s : St) (inp : Inp) :
    (s.rx = RxState.READ_REQUEST →
      (comb s inp).load_read_request = true ∧
      (comb s inp).cri_cmd = CriCmd.read ∧
      (syncStep ws s inp).read_request_pending = true) ∧
    ((comb s inp).load_read_request = true ∨ s.read_request_pending = true →
      (comb s inp).cri_chan_sel = inp.read_request_channel ∧
      (comb s inp).cri_timestamp = inp.read_request_timeout) := by
  constructor
  · intro h
    obtain ⟨rx, tx, cnt, buf, bsr, bs, rrp, ong, ro, rpo⟩ := s
    subst h
    cases tx <;> exact ⟨rfl, rfl, rfl⟩
  · intro hor
    have hcond : ((rxComb s inp).load_read_request || s.read_request_pending) = true := by
      rcases hor with h | h
      · rw [comb_load_read_request] at h
        simp [h]
      · simp [h]
    constructor
    · rw [comb_cri_chan_sel, hcond]
      simp
    · rw [comb_cri_timestamp, hcond]
      simp

/-- Witness for C5: a concrete ReadRequest with channel 3 and timeout 100
drives the CRI outputs from the current decode and latches the pending
flag. -/
theorem c5_witness :
    (comb { initSt 32 with rx := RxState.READ_REQUEST }
       { inp0 with read_request_channel := 3, read_request_timeout := 100 }).cri_chan_sel = 3 ∧
    (comb { initSt 32 with rx := RxState.READ_REQUEST }
       { inp0 with read_request_channel := 3, read_request_timeout := 100 }).cri_timestamp = 100 ∧
    (syncStep 32 { initSt 32 with rx := RxState.READ_REQUEST }
       { inp0 with read_request_channel := 3, read_request_timeout := 100 }).read_request_pending = true := by
  have h := c5_read_request_slot 32 { initSt 32 with rx := RxState.READ_REQUEST }
    { inp0 with read_request_channel := 3, read_request_timeout := 100 }
  have h2 := h.2 (Or.inl (h.1 rfl).1)
  exact ⟨h2.1, h2.2, (h.1 rfl).2.2⟩

/-- C6: the BUFFER_SPACE dispatch state drives the set and snapshot pulses,
so that the request latch is up and the snapshot register holds the CRI
`o_buffer_space` value on the next tick; no other RX state touches the
snapshot register; the BUFFER_SPACE reply state drives the ack, emits
`buffer_space_reply` carrying the snapshot register, and (absent a
simultaneous new request) the latch is down on the next tick. -/
theorem c6_buffer_space (ws : Nat) (s : St) (inp : Inp) :
    (s.rx = RxState.BUFFER_SPACE →
      (comb s inp).buffer_space_set = true ∧
      (comb s inp).buffer_space_update = true ∧
      (syncStep ws s inp).buffer_space_req = true ∧
      (syncStep ws s inp).buffer_space = inp.o_buffer_space) ∧
    (s.rx ≠ RxState.BUFFER_SPACE →
      (syncStep ws s inp).buffer_space = s.buffer_space) ∧
    (s.tx = TxState.BUFFER_SPACE →
      (comb s inp).buffer_space_ack = true ∧
      (comb s inp).send = some (TxSend.buffer_space_reply s.buffer_space) ∧
      (s.rx ≠ RxState.BUFFER_SPACE →
        (syncStep ws s inp).buffer_space_req = false)) := by
  refine ⟨?_, ?_, ?_⟩
  · intro h
    obtain ⟨rx, tx, cnt, buf, bsr, bs, rrp, ong, ro, rpo⟩ := s
    subst h
    cases tx <;> exact ⟨rfl, rfl, rfl, rfl⟩
  · intro h
    have hu : (comb s inp).buffer_space_update = false := by
      rcases hb : (comb s inp).buffer_space_update with _ | _
      · rfl
      · rw [comb_buffer_space_update] at hb
        exact absurd ((rxComb_buffer_space_update_iff s inp).mp hb) h
    rw [syncStep_buffer_space, hu]
    simp
  · intro h
    have hset : ∀ hne : s.rx ≠ RxState.BUFFER_SPACE,
        (comb s inp).buffer_space_set = false := by
      intro hne
      rcases hb : (comb s inp).buffer_space_set with _ | _
      · rfl
      · rw [comb_buffer_space_set] at hb
        exact absurd ((rxComb_buffer_space_set_iff s inp).mp hb) hne
    obtain ⟨rx, tx, cnt, buf, bsr, bs, rrp, ong, ro, rpo⟩ := s
    subst h
    refine ⟨rfl, rfl, ?_⟩
    intro hne
    rw [syncStep_buffer_space_req, hset hne]
    simp only [if_false]
    rfl

/-- Witness for C6: a BufferSpaceRequest snapshots 42; with the snapshot
register at 42 the reply state emits `buffer_space_reply 42`. -/
theorem c6_witness :
    (syncStep 32 { initSt 32 with rx := RxState.BUFFER_SPACE }
       { inp0 with o_buffer_space := 42 }).buffer_space = 42 ∧
    (syncStep 32 { initSt 32 with rx := RxState.BUFFER_SPACE }
       { inp0 with o_buffer_space := 42 }).buffer_space_req = true ∧
    (comb { initSt 32 with tx := TxState.BUFFER_SPACE, buffer_space := 42 }
       inp0).send = some (TxSend.buffer_space_reply 42) := by
  have h1 := (c6_buffer_space 32 { initSt 32 with rx := RxState.BUFFER_SPACE }
    { inp0 with o_buffer_space := 42 }).1 rfl
  have h2 := (c6_buffer_space 32
    { initSt 32 with tx := TxState.BUFFER_SPACE, buffer_space := 42 } inp0).2.2 rfl
  exact ⟨h1.2.2.2, h1.2.2.1, h2.2.1⟩

/-- C9: the echo handshake is an unlatched single-tick pulse.  If an
EchoRequest completes while the reply FSM is not in IDLE, the pulse is
driven but the machine steps to exactly the state it would reach had the
packet not decoded to an echo request, and the tick emits the same reply
words — no trace of the request survives, so no EchoReply is ever produced
for it. -/
theorem c9_echo_pulse_lost (ws : Nat) (s : St) (inp : Inp)
    (htx : s.tx ≠ TxState.IDLE) (hrx : s.rx = RxState.INPUT)
    (hf : inp.frame_r = true) (hl : inp.packet_last = true)
    (ht : inp.packet_type = PacketType.echo_request) :
    (comb s inp).echo_req = true ∧
    (comb s inp).send = (comb s { inp with packet_type := PacketType.other }).send ∧
    syncStep ws s inp = syncStep ws s { inp with packet_type := PacketType.other } := by
  obtain ⟨rx, tx, cnt, buf, bsr, bs, rrp, ong, ro, rpo⟩ := s
  obtain ⟨f, l, t, d, w1, rp, w2, w3, w4, w5, w6, w7, w8, w9, s0, s1, s2, w10, w11, tpl⟩ := inp
  subst hrx hf hl ht
  cases tx
  case IDLE => exact absurd rfl htx
  all_goals exact ⟨rfl, rfl, rfl⟩

/-- Witness for C9: an EchoRequest completing while the reply FSM is busy
in ECHO leaves the machine in the same state as a non-echo word. -/
theorem c9_witness :
    (comb { initSt 32 with tx := TxState.ECHO }
       { inp0 with frame_r := true, packet_last := true,
                   packet_type := PacketType.echo_request }).echo_req = true ∧
    syncStep 32 { initSt 32 with tx := TxState.ECHO }
       { inp0 with frame_r := true, packet_last := true,
                   packet_type := PacketType.echo_request }
      = syncStep 32 { initSt 32 with tx := TxState.ECHO }
       { inp0 with frame_r := true, packet_last := true,
                   packet_type := PacketType.other } := by
  have h := c9_echo_pulse_lost 32 { initSt 32 with tx := TxState.ECHO }
    { inp0 with frame_r := true, packet_last := true,
                packet_type := PacketType.echo_request }
    (by decide) rfl rfl rfl rfl
  exact ⟨h.1, h.2.2⟩

/-- C3: write accumulator exactness.  Starting a `Write` with declared
extra word count `k` (constant over the burst, counter cleared, `k` within
the counter width): while the frame stays up, ticks `0..k-1` load words
without issuing any command and without truncation, and at tick `k` the
write command is issued, no truncation is raised and the FSM returns to
INPUT.  If instead the frame drops at some tick `j < k`, that tick raises
`packet_truncated`, issues no command and returns to INPUT, and one tick
after re-entering INPUT the accumulator count is back to zero.  Moreover a
write command is only ever issued in the WRITE state with the count equal
to the declared extra word count. -/
theorem c3_write_exactness (ws k : Nat) (f : Nat → Inp) (s : St)
    (hrx : s.rx = RxState.WRITE) (hcnt : s.write_data_buffer_cnt = 0)
    (hk : k < 2 ^ cntWidth ws)
    (hext : ∀ j, (f j).write_extra_data_cnt = k) :
    ((∀ j, j < k → (f j).frame_r = true) →
      (∀ j, j < k →
        (comb (runN ws s f j) (f j)).cri_cmd = CriCmd.nop ∧
        (comb (runN ws s f j) (f j)).packet_truncated = false) ∧
      ((comb (runN ws s f k) (f k)).cri_cmd = CriCmd.write ∧
       (runN ws s f k).write_data_buffer_cnt = k ∧
       (comb (runN ws s f k) (f k)).packet_truncated = false ∧
       (comb (runN ws s f k) (f k)).rx_next = RxState.INPUT)) ∧
    (∀ j, j < k → (∀ i, i < j → (f i).frame_r = true) → (f j).frame_r = false →
      ((comb (runN ws s f j) (f j)).packet_truncated = true ∧
       (comb (runN ws s f j) (f j)).cri_cmd = CriCmd.nop ∧
       (comb (runN ws s f j) (f j)).rx_next = RxState.INPUT ∧
       (runN ws s f (j + 2)).write_data_buffer_cnt = 0)) ∧
    (∀ (s2 : St) (inp2 : Inp), (comb s2 inp2).cri_cmd = CriCmd.write →
      (s2.rx = RxState.WRITE ∧
       s2.write_data_buffer_cnt = inp2.write_extra_data_cnt)) := by
  refine ⟨?_, ?_, ?_⟩
  · intro hframes
    constructor
    · intro j hj
      obtain ⟨hrxj, hcntj⟩ := writeRun ws k f s hrx hcnt hk hext j (Nat.le_of_lt hj)
        (fun i hi => hframes i (Nat.lt_trans hi hj))
      have hne : (runN ws s f j).write_data_buffer_cnt
          ≠ (f j).write_extra_data_cnt := by
        rw [hcntj, hext j]; exact Nat.ne_of_lt hj
      have hmiss := comb_write_miss (runN ws s f j) (f j) hrxj hne
      refine ⟨hmiss.1, ?_⟩
      rw [hmiss.2.2.1, hframes j hj]
      rfl
    · obtain ⟨hrxk, hcntk⟩ :=
        writeRun ws k f s hrx hcnt hk hext k (Nat.le_refl k) hframes
      have he : (runN ws s f k).write_data_buffer_cnt
          = (f k).write_extra_data_cnt := by
        rw [hcntk, hext k]
      have hhit := comb_write_hit (runN ws s f k) (f k) hrxk he
      exact ⟨hhit.1, hcntk, hhit.2.2.1, hhit.2.2.2⟩
  · intro j hj hframes hdrop
    obtain ⟨hrxj, hcntj⟩ :=
      writeRun ws k f s hrx hcnt hk hext j (Nat.le_of_lt hj) hframes
    have hne : (runN ws s f j).write_data_buffer_cnt
        ≠ (f j).write_extra_data_cnt := by
      rw [hcntj, hext j]; exact Nat.ne_of_lt hj
    have hmiss := comb_write_miss (runN ws s f j) (f j) hrxj hne
    have htr : (comb (runN ws s f j) (f j)).packet_truncated = true := by
      rw [hmiss.2.2.1, hdrop]; rfl
    have hrxn : (comb (runN ws s f j) (f j)).rx_next = RxState.INPUT := by
      rw [hmiss.2.2.2, hdrop]; rfl
    have hrx1 : (runN ws s f (j + 1)).rx = RxState.INPUT := by
      rw [runN_succ, syncStep_rx]; exact hrxn
    have hload1 := comb_input_load (runN ws s f (j + 1)) (f (j + 1)) hrx1
    refine ⟨htr, hmiss.1, hrxn, ?_⟩
    have hstep : runN ws s f (j + 2) = syncStep ws (runN ws s f (j + 1)) (f (j + 1)) := rfl
    rw [hstep, syncStep_write_data_buffer_cnt, hload1]
    rfl
  · intro s2 inp2 hcmd
    rw [comb_cri_cmd] at hcmd
    exact (rxComb_cmd_write_iff s2 inp2).mp hcmd

/-- Constant input stream for the C3 witness: frame up, one declared extra
word. -/
def fC3w : Nat → Inp := fun _ => { inp0 with frame_r := true, write_extra_data_cnt := 1 }

/-- Witness for C3: with one declared extra word and the frame up, the
write command is issued on tick 1 with exactly one accumulated word. -/
theorem c3_witness :
    (comb (runN 32 { initSt 32 with rx := RxState.WRITE } fC3w 1) (fC3w 1)).cri_cmd
      = CriCmd.write ∧
    (runN 32 { initSt 32 with rx := RxState.WRITE } fC3w 1).write_data_buffer_cnt = 1 := by
  have h := c3_write_exactness 32 1 fC3w { initSt 32 with rx := RxState.WRITE }
    rfl rfl (by decide) (fun j => rfl)
  have h2 := h.1 (fun j hj => rfl)
  exact ⟨h2.2.1, h2.2.2.1⟩
